import Mathlib

/-!
# onyx: `win_open_folder.cpp`

A shallow embedding of the two functions of
`src/haskell/src-exe/cbits/win_open_folder.cpp`:

* `OnyxPickFolder` (lines 7-46), the folder-picking dialog wrapper;
* `onyxInitCOM` (lines 48-52), the COM initialisation call.

Both functions are straight-line control flow around calls into the Windows
shell.  The shell is not part of the repository, so it is a parameter of the
embedding: a `Platform` gives, for each API function the code calls, the value
that call returns (its `HRESULT`) and what it stores through its output pointer.
Each embedded function returns its C++ return value together with the list of
platform calls it made, in program order (`Event`), so that statements about
*which* calls happen, with which arguments and in which order, can be stated.
-/

namespace Onyx

/-! ## Windows SDK types and constants used by the source -/

/-- Windows `HRESULT`: a signed 32-bit status code. -/
abbrev HRESULT := Int

/-- Windows `DWORD`: an unsigned 32-bit word, kept as a natural number. -/
abbrev DWORD := Nat

/-- The address held by a COM interface pointer (`IFileDialog *`, `IShellItem *`). -/
abbrev Handle := Nat

/-- The contents of a wide-character path string (`wchar_t *` / `PWSTR`);
the NULL pointer is `none : Option Path`. -/
abbrev Path := String

/-- The `SUCCEEDED(hr)` test of `winerror.h`: `((HRESULT)(hr)) >= 0`. -/
def SUCCEEDED (hr : HRESULT) : Bool := decide (0 ≤ hr)

/-- The constant `S_OK` of `winerror.h`. -/
def S_OK : HRESULT := 0

/-- The constant `E_FAIL` (`0x80004005`) of `winerror.h`, as a signed 32-bit value. -/
def E_FAIL : HRESULT := -2147467259

/-- The value `HRESULT_FROM_WIN32(ERROR_CANCELLED)` (`0x800704C7`), which
`IFileDialog::Show` returns when the user cancels the dialog. -/
def HR_CANCELLED : HRESULT := -2147023673

/-- The flag `FOS_PICKFOLDERS` (`0x20`) of `shobjidl.h`. -/
def FOS_PICKFOLDERS : DWORD := 0x20

/-- The value `SIGDN_DESKTOPABSOLUTEPARSING` (`0x80028000`) of `shobjidl.h`. -/
def SIGDN_DESKTOPABSOLUTEPARSING : Nat := 0x80028000

/-- The value `COINIT_APARTMENTTHREADED` (`0x2`) of `objbase.h`. -/
def COINIT_APARTMENTTHREADED : Nat := 0x2

/-- A COM object the code holds a pointer to: the file dialog (`pfd`) or a shell
item (`psiStart`, `psi`). -/
inductive ComPtr where
  | dialog (h : Handle)
  | item (h : Handle)
  deriving DecidableEq, Repr

/-- What each platform call of the source returns.  A pair is the returned
`HRESULT` and the value stored through the output pointer.  For
`GetDisplayName` the second component is the store into `&result`, if the call
makes one: `none` leaves `result` untouched, `some v` overwrites it with `v`
(which may itself be NULL). -/
structure Platform where
  CoCreateInstance : HRESULT × Handle
  GetOptions : Handle → HRESULT × DWORD
  SetOptions : Handle → DWORD → HRESULT
  SHCreateItemFromParsingName : Path → HRESULT × Handle
  SetFolder : Handle → Handle → HRESULT
  Show : Handle → HRESULT
  GetResult : Handle → HRESULT × Handle
  GetDisplayName : Handle → Nat → HRESULT × Option (Option Path)
  CoInitializeEx : Nat → HRESULT

/-- One platform call made by the code, with its arguments and what it returned. -/
inductive Event where
  | CoCreateInstance (hr : HRESULT) (pfd : Handle)
  | GetOptions (pfd : Handle) (hr : HRESULT) (dwOptions : DWORD)
  | SetOptions (pfd : Handle) (fos : DWORD) (hr : HRESULT)
  | SHCreateItemFromParsingName (path : Path) (hr : HRESULT) (psi : Handle)
  | SetFolder (pfd : Handle) (psi : Handle) (hr : HRESULT)
  | Show (pfd : Handle) (hr : HRESULT)
  | GetResult (pfd : Handle) (hr : HRESULT) (psi : Handle)
  | GetDisplayName (psi : Handle) (sigdn : Nat) (hr : HRESULT) (out : Option (Option Path))
  | Release (p : ComPtr)
  | CoInitializeEx (dwCoInit : Nat) (hr : HRESULT)
  deriving DecidableEq, Repr

/-! ## The two functions of the source -/

/-- The function `OnyxPickFolder` (lines 7-46).  Returns the C++ return value
(`none` is NULL) and the platform calls made, in order. -/
def OnyxPickFolder (pf : Platform) (StartFolder : Option Path) : Option Path × List Event :=
  let result : Option Path := none
  let created := pf.CoCreateInstance
  let pfd := created.2
  let t := [Event.CoCreateInstance created.1 pfd]
  if SUCCEEDED created.1 then
    let got := pf.GetOptions pfd
    let dwOptions := got.2
    let t := t ++ [Event.GetOptions pfd got.1 dwOptions]
    let t :=
      if SUCCEEDED got.1 then
        let fos := (dwOptions ||| FOS_PICKFOLDERS) % 2 ^ 32
        t ++ [Event.SetOptions pfd fos (pf.SetOptions pfd fos)]
      else t
    let t :=
      match StartFolder with
      | none => t
      | some s =>
        let made := pf.SHCreateItemFromParsingName s
        let psiStart := made.2
        let t := t ++ [Event.SHCreateItemFromParsingName s made.1 psiStart]
        if SUCCEEDED made.1 then
          t ++ [Event.SetFolder pfd psiStart (pf.SetFolder pfd psiStart),
                Event.Release (ComPtr.item psiStart)]
        else t
    let hrShow := pf.Show pfd
    let t := t ++ [Event.Show pfd hrShow]
    let rt : Option Path × List Event :=
      if SUCCEEDED hrShow then
        let res := pf.GetResult pfd
        let psi := res.2
        let t := t ++ [Event.GetResult pfd res.1 psi]
        if SUCCEEDED res.1 then
          let named := pf.GetDisplayName psi SIGDN_DESKTOPABSOLUTEPARSING
          let result := match named.2 with
            | some v => v
            | none => result
          let result := if !SUCCEEDED named.1 then none else result
          (result, t ++ [Event.GetDisplayName psi SIGDN_DESKTOPABSOLUTEPARSING named.1 named.2,
                         Event.Release (ComPtr.item psi)])
        else (result, t)
      else (result, t)
    (rt.1, rt.2 ++ [Event.Release (ComPtr.dialog pfd)])
  else (result, t)

/-- The function `onyxInitCOM` (lines 48-52): one `CoInitializeEx` call whose
`HRESULT` is discarded; the function returns `void`. -/
def onyxInitCOM (pf : Platform) : Unit × List Event :=
  let hr := pf.CoInitializeEx COINIT_APARTMENTTHREADED
  ((), [Event.CoInitializeEx COINIT_APARTMENTTHREADED hr])

/-! ## Reading a list of calls -/

/-- The call is `IFileDialog::SetOptions`. -/
def Event.isSetOptions : Event → Bool
  | .SetOptions _ _ _ => true
  | _ => false

/-- The call is `IFileDialog::SetFolder`. -/
def Event.isSetFolder : Event → Bool
  | .SetFolder _ _ _ => true
  | _ => false

/-- The call is `IFileDialog::Show`. -/
def Event.isShow : Event → Bool
  | .Show _ _ => true
  | _ => false

/-- The call is `SHCreateItemFromParsingName`, the resolution of the start folder. -/
def Event.isResolve : Event → Bool
  | .SHCreateItemFromParsingName _ _ _ => true
  | _ => false

/-- The call is `CoInitializeEx`. -/
def Event.isCoInitializeEx : Event → Bool
  | .CoInitializeEx _ _ => true
  | _ => false

/-- The call is made on the dialog object: one of its methods `GetOptions`,
`SetOptions`, `SetFolder`, `Show`, `GetResult`, or its `Release`. -/
def Event.onDialog : Event → Bool
  | .GetOptions _ _ _ => true
  | .SetOptions _ _ _ => true
  | .SetFolder _ _ _ => true
  | .Show _ _ => true
  | .GetResult _ _ _ => true
  | .Release (.dialog _) => true
  | _ => false

/-- The calls made on the dialog object, in order. -/
def dialogCalls (t : List Event) : List Event := t.filter Event.onDialog

/-- The call is a `Release` of the dialog object. -/
def Event.isReleaseDialog : Event → Bool
  | .Release (.dialog _) => true
  | _ => false

/-- The call is a `Release` of a shell item. -/
def Event.isReleaseItem : Event → Bool
  | .Release (.item _) => true
  | _ => false

/-- The objects a call hands to the caller: a successful `CoCreateInstance`
gives the dialog, a successful `SHCreateItemFromParsingName` or `GetResult`
gives a shell item.  The caller owns one reference to each. -/
def Event.acquires : Event → List ComPtr
  | .CoCreateInstance hr pfd => if SUCCEEDED hr then [.dialog pfd] else []
  | .SHCreateItemFromParsingName _ hr psi => if SUCCEEDED hr then [.item psi] else []
  | .GetResult _ hr psi => if SUCCEEDED hr then [.item psi] else []
  | _ => []

/-- The objects a call dereferences or passes on: the receiver of a method call
and any interface pointer among its arguments. -/
def Event.uses : Event → List ComPtr
  | .GetOptions pfd _ _ => [.dialog pfd]
  | .SetOptions pfd _ _ => [.dialog pfd]
  | .SetFolder pfd psi _ => [.dialog pfd, .item psi]
  | .Show pfd _ => [.dialog pfd]
  | .GetResult pfd _ _ => [.dialog pfd]
  | .GetDisplayName psi _ _ _ => [.item psi]
  | .Release p => [p]
  | _ => []

/-- The reference a call gives up. -/
def Event.releases : Event → List ComPtr
  | .Release p => [p]
  | _ => []

/-- Reference discipline of a list of calls.  `held` is the multiset of
references the caller owns.  Every object a call uses (a `Release` included)
must be held when the call is made; a successful acquisition adds a reference, a
`Release` removes one; when the calls end no reference may be left. -/
def refSafe : List ComPtr → List Event → Bool
  | held, [] => held.isEmpty
  | held, e :: t =>
      e.uses.all (fun p => decide (p ∈ held))
        && refSafe (e.releases.foldl List.erase (e.acquires ++ held)) t

/-- Folder-picking mode is in force at every `Show`: walking the calls in order,
`cfg` collects the dialogs on which a `SetOptions` whose argument contains the
`FOS_PICKFOLDERS` bit has been made, and each `Show` must be on one of them. -/
def pickFoldersAtShow : List Handle → List Event → Bool
  | _, [] => true
  | cfg, Event.SetOptions pfd fos _ :: t =>
      pickFoldersAtShow (if fos &&& FOS_PICKFOLDERS = FOS_PICKFOLDERS then pfd :: cfg else cfg) t
  | cfg, Event.Show pfd _ :: t => decide (pfd ∈ cfg) && pickFoldersAtShow cfg t
  | cfg, _ :: t => pickFoldersAtShow cfg t

/-! ## Sessions: the platform between two calls of the source

Within one run of `OnyxPickFolder` or `onyxInitCOM` every platform function is
called at most once, so a `Platform` table describes the run.  Between runs the
platform moves on: what `CoCreateInstance` returns depends on whether, and how
often, `CoInitializeEx` has been called on the thread (the source's note on
lines 11-12).  A `ComRuntime` is that larger platform. -/

/-- A platform with state `σ`: `view s` is what each call returns when the
platform is in state `s`, and `step s e` is the state after the call `e` has
been made in state `s`. -/
structure ComRuntime (σ : Type) where
  view : σ → Platform
  step : σ → Event → σ

/-- The state of the runtime after one call of `onyxInitCOM` made in state `s`:
the state is advanced by the calls that `onyxInitCOM` makes. -/
def ComRuntime.afterInit {σ : Type} (m : ComRuntime σ) (s : σ) : σ :=
  (onyxInitCOM (m.view s)).2.foldl m.step s

/-- The session of the initialisation property: `n` calls of `onyxInitCOM`, then
one call of `OnyxPickFolder`, started in state `s`; each call sees the platform
as the calls before it have left it.  Returns what `OnyxPickFolder` returned and
all platform calls of the session, in order. -/
def initThenPick {σ : Type} (m : ComRuntime σ) (StartFolder : Option Path) :
    Nat → σ → Option Path × List Event
  | 0, s => OnyxPickFolder (m.view s) StartFolder
  | n + 1, s =>
    let i := onyxInitCOM (m.view s)
    let r := initThenPick m StartFolder n (m.afterInit s)
    (r.1, i.2 ++ r.2)

/-- A platform on which every call succeeds: the dialog is object `1`, the
start folder resolves to item `2`, the user picks item `3`, whose display name
is `D:/songs`; the dialog's current options are `FOS_FILEMUSTEXIST` (`0x1000`). -/
def happyPlatform : Platform where
  CoCreateInstance := (S_OK, 1)
  GetOptions := fun _ => (S_OK, 0x1000)
  SetOptions := fun _ _ => S_OK
  SHCreateItemFromParsingName := fun _ => (S_OK, 2)
  SetFolder := fun _ _ => S_OK
  Show := fun _ => S_OK
  GetResult := fun _ => (S_OK, 3)
  GetDisplayName := fun _ _ => (S_OK, some (some "D:/songs"))
  CoInitializeEx := fun _ => S_OK

/-- As `happyPlatform`, but `CoCreateInstance` fails. -/
def noDialogPlatform : Platform :=
  { happyPlatform with CoCreateInstance := (E_FAIL, 0) }

/-- As `happyPlatform`, but the user cancels the dialog. -/
def cancelPlatform : Platform :=
  { happyPlatform with Show := fun _ => HR_CANCELLED }

/-- As `happyPlatform`, but `GetDisplayName` fails after storing a string. -/
def badNamePlatform : Platform :=
  { happyPlatform with GetDisplayName := fun _ _ => (E_FAIL, some (some "garbage")) }

/-- As `happyPlatform`, but no start folder can be resolved. -/
def noStartPlatform : Platform :=
  { happyPlatform with SHCreateItemFromParsingName := fun _ => (E_FAIL, 0) }

/-- As `happyPlatform`, but `GetOptions` fails. -/
def noOptionsPlatform : Platform :=
  { happyPlatform with GetOptions := fun _ => (E_FAIL, 0) }

/-- The constant `S_FALSE` of `winerror.h`: success, nothing was done. -/
def S_FALSE : HRESULT := 1

/-- The constant `CO_E_NOTINITIALIZED` (`0x800401F0`) of `winerror.h`, as a signed
32-bit value. -/
def CO_E_NOTINITIALIZED : HRESULT := -2147221008

/-- A runtime that behaves as Windows does on one thread.  The state is the
number of `CoInitializeEx` calls made.  Before the first one
`CoCreateInstance` fails with `CO_E_NOTINITIALIZED`; the first
`CoInitializeEx` returns `S_OK` and every later one `S_FALSE`; once initialised
the shell answers as `happyPlatform`. -/
def windowsRuntime : ComRuntime Nat where
  view := fun k =>
    { happyPlatform with
      CoCreateInstance := if k = 0 then (CO_E_NOTINITIALIZED, 0) else (S_OK, 1)
      CoInitializeEx := fun _ => if k = 0 then S_OK else S_FALSE }
  step := fun k e => if e.isCoInitializeEx then k + 1 else k

/-- The argument `OnyxPickFolder` passes to `SetOptions` contains `FOS_PICKFOLDERS`. -/
theorem pickFolders_bit_set (d : DWORD) :
    ((d ||| FOS_PICKFOLDERS) % 2 ^ 32) &&& FOS_PICKFOLDERS = FOS_PICKFOLDERS := by
  apply Nat.eq_of_testBit_eq
  intro i
  have h : FOS_PICKFOLDERS = 2 ^ 5 := by decide
  rw [h]
  simp only [Nat.testBit_and, Nat.testBit_mod_two_pow, Nat.testBit_or, Nat.testBit_two_pow]
  by_cases hi : 5 = i
  · subst hi; simp
  · simp [hi]

/-- The same fact with the modulus written out, the form `simp` produces. -/
theorem pickFolders_bit_set_lit (d : DWORD) :
    ((d ||| FOS_PICKFOLDERS) % 4294967296) &&& FOS_PICKFOLDERS = FOS_PICKFOLDERS :=
  pickFolders_bit_set d

/-- C1: whatever the start folder, when dialog creation, `Show`, `GetResult`
and `GetDisplayName` all succeed and `GetDisplayName` stores the path `P`,
`OnyxPickFolder` returns exactly `P`; nothing is assumed about `GetOptions`,
`SetOptions`, the resolution of the start folder or `SetFolder`. -/
theorem OnyxPickFolder_returns_selected (pf : Platform) (StartFolder : Option Path)
    (P : Path) (hr : HRESULT)
    (hCreate : SUCCEEDED pf.CoCreateInstance.1 = true)
    (hShow : SUCCEEDED (pf.Show pf.CoCreateInstance.2) = true)
    (hResult : SUCCEEDED (pf.GetResult pf.CoCreateInstance.2).1 = true)
    (hName : pf.GetDisplayName (pf.GetResult pf.CoCreateInstance.2).2
        SIGDN_DESKTOPABSOLUTEPARSING = (hr, some (some P)))
    (hOk : SUCCEEDED hr = true) :
    (OnyxPickFolder pf StartFolder).1 = some P := by
  simp [OnyxPickFolder, hCreate, hShow, hResult, hName, hOk]

/-- C3: when `CoCreateInstance` fails, `OnyxPickFolder` returns NULL and the
`CoCreateInstance` call is the only platform call it makes. -/
theorem OnyxPickFolder_creation_failed (pf : Platform) (StartFolder : Option Path)
    (hCreate : SUCCEEDED pf.CoCreateInstance.1 = false) :
    OnyxPickFolder pf StartFolder =
      (none, [Event.CoCreateInstance pf.CoCreateInstance.1 pf.CoCreateInstance.2]) := by
  simp [OnyxPickFolder, hCreate]

/-- C2: if dialog creation, `Show`, `GetResult` or `GetDisplayName` fails,
`OnyxPickFolder` returns NULL (for `GetDisplayName` whatever the call stored in
the output parameter); and a non-NULL return value means all four succeeded. -/
theorem OnyxPickFolder_absent_on_failure (pf : Platform) (StartFolder : Option Path) :
    ((SUCCEEDED pf.CoCreateInstance.1 = false
        ∨ SUCCEEDED (pf.Show pf.CoCreateInstance.2) = false
        ∨ SUCCEEDED (pf.GetResult pf.CoCreateInstance.2).1 = false
        ∨ SUCCEEDED (pf.GetDisplayName (pf.GetResult pf.CoCreateInstance.2).2
            SIGDN_DESKTOPABSOLUTEPARSING).1 = false) →
      (OnyxPickFolder pf StartFolder).1 = none)
    ∧ ((OnyxPickFolder pf StartFolder).1 ≠ none →
      SUCCEEDED pf.CoCreateInstance.1 = true
        ∧ SUCCEEDED (pf.Show pf.CoCreateInstance.2) = true
        ∧ SUCCEEDED (pf.GetResult pf.CoCreateInstance.2).1 = true
        ∧ SUCCEEDED (pf.GetDisplayName (pf.GetResult pf.CoCreateInstance.2).2
            SIGDN_DESKTOPABSOLUTEPARSING).1 = true) := by
  unfold OnyxPickFolder
  cases hC : SUCCEEDED pf.CoCreateInstance.1 <;>
  cases hS : SUCCEEDED (pf.Show pf.CoCreateInstance.2) <;>
  cases hR : SUCCEEDED (pf.GetResult pf.CoCreateInstance.2).1 <;>
  cases hN : SUCCEEDED (pf.GetDisplayName (pf.GetResult pf.CoCreateInstance.2).2
            SIGDN_DESKTOPABSOLUTEPARSING).1 <;>
  simp [hC, hS, hR, hN]

/-- C1 at a concrete platform: the user confirms `D:/songs`. -/
theorem OnyxPickFolder_returns_selected_witness :
    (OnyxPickFolder happyPlatform (some "D:/start")).1 = some "D:/songs" :=
  OnyxPickFolder_returns_selected happyPlatform (some "D:/start") "D:/songs" S_OK
    (by decide) (by decide) (by decide) rfl (by decide)

/-- C3 at a concrete platform: creation fails with `E_FAIL`. -/
theorem OnyxPickFolder_creation_failed_witness :
    OnyxPickFolder noDialogPlatform (some "D:/start") =
      (none, [Event.CoCreateInstance E_FAIL 0]) :=
  OnyxPickFolder_creation_failed noDialogPlatform (some "D:/start") (by decide)

/-- C2 at concrete platforms: `GetDisplayName` fails after storing a string and
the result is NULL; the user cancels and the result is NULL; on the all-success platform the result is not NULL. -/
theorem OnyxPickFolder_absent_on_failure_witness :
    (OnyxPickFolder badNamePlatform none).1 = none
    ∧ (OnyxPickFolder cancelPlatform none).1 = none
    ∧ SUCCEEDED (happyPlatform.GetDisplayName (happyPlatform.GetResult
        happyPlatform.CoCreateInstance.2).2 SIGDN_DESKTOPABSOLUTEPARSING).1 = true :=
  ⟨(OnyxPickFolder_absent_on_failure badNamePlatform none).1
      (Or.inr (Or.inr (Or.inr (by decide)))),
   (OnyxPickFolder_absent_on_failure cancelPlatform none).1
      (Or.inr (Or.inl (by decide))),
   ((OnyxPickFolder_absent_on_failure happyPlatform none).2
      (by simp [OnyxPickFolder, happyPlatform, SUCCEEDED, S_OK])).2.2.2⟩

/-- C4: when creation succeeds and the start folder `S` cannot be resolved,
`Show` is called exactly once, `SetFolder` is never called, and the value
returned is the one returned by any run (on any platform, with any start folder,
in particular one whose resolution succeeds) in which creation succeeds and
`Show`, `GetResult` and `GetDisplayName` have the same outcomes. -/
theorem OnyxPickFolder_resolution_failure_nonfatal (pf pf' : Platform) (S : Path)
    (StartFolder' : Option Path)
    (hCreate : SUCCEEDED pf.CoCreateInstance.1 = true)
    (hResolve : SUCCEEDED (pf.SHCreateItemFromParsingName S).1 = false)
    (hCreate' : SUCCEEDED pf'.CoCreateInstance.1 = true)
    (hShow : pf'.Show pf'.CoCreateInstance.2 = pf.Show pf.CoCreateInstance.2)
    (hResult : pf'.GetResult pf'.CoCreateInstance.2 = pf.GetResult pf.CoCreateInstance.2)
    (hName : pf'.GetDisplayName (pf.GetResult pf.CoCreateInstance.2).2
        SIGDN_DESKTOPABSOLUTEPARSING
      = pf.GetDisplayName (pf.GetResult pf.CoCreateInstance.2).2
        SIGDN_DESKTOPABSOLUTEPARSING) :
    (OnyxPickFolder pf (some S)).2.countP Event.isShow = 1
    ∧ (OnyxPickFolder pf (some S)).2.countP Event.isSetFolder = 0
    ∧ (OnyxPickFolder pf (some S)).1 = (OnyxPickFolder pf' StartFolder').1 := by
  unfold OnyxPickFolder
  simp only [hCreate, hCreate', hResolve, hShow, hResult, hName]
  cases hG : SUCCEEDED (pf.GetOptions pf.CoCreateInstance.2).1 <;>
  cases hS : SUCCEEDED (pf.Show pf.CoCreateInstance.2) <;>
  cases hR : SUCCEEDED (pf.GetResult pf.CoCreateInstance.2).1 <;>
  cases hN : SUCCEEDED (pf.GetDisplayName (pf.GetResult pf.CoCreateInstance.2).2
            SIGDN_DESKTOPABSOLUTEPARSING).1 <;>
  simp [Event.isShow, Event.isSetFolder, List.countP_cons]

/-- C4 at concrete platforms: the unresolvable start folder against the run
where it resolves. -/
theorem OnyxPickFolder_resolution_failure_nonfatal_witness :
    (OnyxPickFolder noStartPlatform (some "D:/gone")).2.countP Event.isShow = 1
    ∧ (OnyxPickFolder noStartPlatform (some "D:/gone")).2.countP Event.isSetFolder = 0
    ∧ (OnyxPickFolder noStartPlatform (some "D:/gone")).1
        = (OnyxPickFolder happyPlatform (some "D:/gone")).1 :=
  OnyxPickFolder_resolution_failure_nonfatal noStartPlatform happyPlatform "D:/gone"
    (some "D:/gone") (by decide) (by decide) (by decide) rfl rfl rfl

/-- C5: when the start folder `S` cannot be resolved, the calls made on the
dialog object and the returned value are those of the run without a start
folder, and neither run calls `SetFolder`. -/
theorem OnyxPickFolder_unresolved_as_absent (pf : Platform) (S : Path)
    (hResolve : SUCCEEDED (pf.SHCreateItemFromParsingName S).1 = false) :
    dialogCalls (OnyxPickFolder pf (some S)).2 = dialogCalls (OnyxPickFolder pf none).2
    ∧ (OnyxPickFolder pf (some S)).1 = (OnyxPickFolder pf none).1
    ∧ (OnyxPickFolder pf (some S)).2.countP Event.isSetFolder = 0
    ∧ (OnyxPickFolder pf none).2.countP Event.isSetFolder = 0 := by
  unfold OnyxPickFolder dialogCalls
  simp only [hResolve]
  cases hC : SUCCEEDED pf.CoCreateInstance.1 <;>
  cases hG : SUCCEEDED (pf.GetOptions pf.CoCreateInstance.2).1 <;>
  cases hS : SUCCEEDED (pf.Show pf.CoCreateInstance.2) <;>
  cases hR : SUCCEEDED (pf.GetResult pf.CoCreateInstance.2).1 <;>
  simp [Event.onDialog, Event.isSetFolder, List.countP_cons, List.filter_cons]

/-- C5 at a concrete platform. -/
theorem OnyxPickFolder_unresolved_as_absent_witness :
    dialogCalls (OnyxPickFolder noStartPlatform (some "D:/gone")).2
      = dialogCalls (OnyxPickFolder noStartPlatform none).2
    ∧ (OnyxPickFolder noStartPlatform (some "D:/gone")).1
      = (OnyxPickFolder noStartPlatform none).1
    ∧ (OnyxPickFolder noStartPlatform (some "D:/gone")).2.countP Event.isSetFolder = 0
    ∧ (OnyxPickFolder noStartPlatform none).2.countP Event.isSetFolder = 0 :=
  OnyxPickFolder_unresolved_as_absent noStartPlatform "D:/gone" (by decide)

/-- C6, counterexample: on a platform where `GetOptions` fails, dialog creation
succeeds and `Show` is called, yet no `SetOptions` call at all precedes it. -/
theorem OnyxPickFolder_show_without_pickfolders :
    SUCCEEDED noOptionsPlatform.CoCreateInstance.1 = true
    ∧ (OnyxPickFolder noOptionsPlatform none).2 =
        [Event.CoCreateInstance S_OK 1, Event.GetOptions 1 E_FAIL 0, Event.Show 1 S_OK,
         Event.GetResult 1 S_OK 3,
         Event.GetDisplayName 3 SIGDN_DESKTOPABSOLUTEPARSING S_OK (some (some "D:/songs")),
         Event.Release (ComPtr.item 3), Event.Release (ComPtr.dialog 1)]
    ∧ pickFoldersAtShow [] (OnyxPickFolder noOptionsPlatform none).2 = false
    ∧ (OnyxPickFolder noOptionsPlatform none).1 = some "D:/songs" := by
  refine ⟨by decide, ?_, ?_, ?_⟩ <;>
  simp [OnyxPickFolder, noOptionsPlatform, happyPlatform, SUCCEEDED, S_OK, E_FAIL,
    pickFoldersAtShow]

/-- C6, amended: when dialog creation and `GetOptions` both succeed, `Show` is
called exactly once and, before it, `SetOptions` has been called on the same
dialog with an argument that contains `FOS_PICKFOLDERS`. -/
theorem OnyxPickFolder_pickfolders_before_show (pf : Platform) (StartFolder : Option Path)
    (hCreate : SUCCEEDED pf.CoCreateInstance.1 = true)
    (hOptions : SUCCEEDED (pf.GetOptions pf.CoCreateInstance.2).1 = true) :
    pickFoldersAtShow [] (OnyxPickFolder pf StartFolder).2 = true
    ∧ (OnyxPickFolder pf StartFolder).2.countP Event.isShow = 1 := by
  unfold OnyxPickFolder
  simp only [hCreate, hOptions]
  cases StartFolder with
  | none =>
    cases hS : SUCCEEDED (pf.Show pf.CoCreateInstance.2) <;>
    cases hR : SUCCEEDED (pf.GetResult pf.CoCreateInstance.2).1 <;>
    simp [hS, hR, pickFoldersAtShow, pickFolders_bit_set_lit, Event.isShow, List.countP_cons]
  | some s =>
    cases hV : SUCCEEDED (pf.SHCreateItemFromParsingName s).1 <;>
    cases hS : SUCCEEDED (pf.Show pf.CoCreateInstance.2) <;>
    cases hR : SUCCEEDED (pf.GetResult pf.CoCreateInstance.2).1 <;>
    simp [hV, hS, hR, pickFoldersAtShow, pickFolders_bit_set_lit, Event.isShow,
      List.countP_cons]

/-- C6, amended, at a concrete platform. -/
theorem OnyxPickFolder_pickfolders_before_show_witness :
    pickFoldersAtShow [] (OnyxPickFolder happyPlatform (some "D:/start")).2 = true
    ∧ (OnyxPickFolder happyPlatform (some "D:/start")).2.countP Event.isShow = 1 :=
  OnyxPickFolder_pickfolders_before_show happyPlatform (some "D:/start")
    (by decide) (by decide)

/-- C7: when creation succeeds and the start folder `S` resolves to the item
`I`, `SetFolder` is called exactly once, with `I`, and that call comes before
the single `Show`; and on every platform, whatever creation or any other call
does, a run without a start folder calls neither
`SHCreateItemFromParsingName` nor `SetFolder`. -/
theorem OnyxPickFolder_start_folder_applied (pf : Platform) (S : Path) (I : Handle)
    (hr : HRESULT) :
    (SUCCEEDED pf.CoCreateInstance.1 = true →
      pf.SHCreateItemFromParsingName S = (hr, I) →
      SUCCEEDED hr = true →
      ((OnyxPickFolder pf (some S)).2.filter Event.isSetFolder
          = [Event.SetFolder pf.CoCreateInstance.2 I (pf.SetFolder pf.CoCreateInstance.2 I)]
        ∧ (OnyxPickFolder pf (some S)).2.countP Event.isShow = 1
        ∧ ∃ pre post, (OnyxPickFolder pf (some S)).2
              = pre ++ Event.SetFolder pf.CoCreateInstance.2 I
                  (pf.SetFolder pf.CoCreateInstance.2 I) :: post
            ∧ pre.countP Event.isShow = 0 ∧ post.countP Event.isShow = 1))
    ∧ ((OnyxPickFolder pf none).2.countP Event.isResolve = 0
      ∧ (OnyxPickFolder pf none).2.countP Event.isSetFolder = 0) := by
  constructor
  · intro hCreate hResolve hOk
    refine ⟨?_, ?_, (OnyxPickFolder pf (some S)).2.takeWhile (fun e => !e.isSetFolder),
      ((OnyxPickFolder pf (some S)).2.dropWhile (fun e => !e.isSetFolder)).tail, ?_, ?_, ?_⟩ <;>
    unfold OnyxPickFolder <;>
    simp only [hCreate, hResolve, hOk] <;>
    cases hG : SUCCEEDED (pf.GetOptions pf.CoCreateInstance.2).1 <;>
    cases hS : SUCCEEDED (pf.Show pf.CoCreateInstance.2) <;>
    cases hR : SUCCEEDED (pf.GetResult pf.CoCreateInstance.2).1 <;>
    simp [hG, hS, hR, Event.isSetFolder, Event.isShow, List.countP_cons,
      List.filter_cons, List.takeWhile_cons, List.dropWhile_cons]
  · unfold OnyxPickFolder
    cases hC : SUCCEEDED pf.CoCreateInstance.1 <;>
    cases hG : SUCCEEDED (pf.GetOptions pf.CoCreateInstance.2).1 <;>
    cases hS : SUCCEEDED (pf.Show pf.CoCreateInstance.2) <;>
    cases hR : SUCCEEDED (pf.GetResult pf.CoCreateInstance.2).1 <;>
    simp [hC, hG, hS, hR, Event.isSetFolder, Event.isResolve, List.countP_cons]

/-- C7 at concrete platforms: the start folder resolves to item `2`; and the
run without a start folder makes neither call where no path resolves and where
creation fails. -/
theorem OnyxPickFolder_start_folder_applied_witness :
    ((OnyxPickFolder happyPlatform (some "D:/start")).2.filter Event.isSetFolder
        = [Event.SetFolder happyPlatform.CoCreateInstance.2 2
            (happyPlatform.SetFolder happyPlatform.CoCreateInstance.2 2)]
      ∧ (OnyxPickFolder happyPlatform (some "D:/start")).2.countP Event.isShow = 1
      ∧ ∃ pre post, (OnyxPickFolder happyPlatform (some "D:/start")).2
            = pre ++ Event.SetFolder happyPlatform.CoCreateInstance.2 2
                (happyPlatform.SetFolder happyPlatform.CoCreateInstance.2 2) :: post
          ∧ pre.countP Event.isShow = 0 ∧ post.countP Event.isShow = 1)
    ∧ ((OnyxPickFolder noStartPlatform none).2.countP Event.isResolve = 0
      ∧ (OnyxPickFolder noStartPlatform none).2.countP Event.isSetFolder = 0)
    ∧ ((OnyxPickFolder noDialogPlatform none).2.countP Event.isResolve = 0
      ∧ (OnyxPickFolder noDialogPlatform none).2.countP Event.isSetFolder = 0) :=
  ⟨(OnyxPickFolder_start_folder_applied happyPlatform "D:/start" 2 S_OK).1
      (by decide) rfl (by decide),
   (OnyxPickFolder_start_folder_applied noStartPlatform "D:/start" 0 E_FAIL).2,
   (OnyxPickFolder_start_folder_applied noDialogPlatform "D:/start" 0 E_FAIL).2⟩

/-- C10: when creation and `GetOptions` succeed with the 32-bit option word
`d`, `SetOptions` is called exactly once, with `d ||| FOS_PICKFOLDERS`: every
bit of `d` stays set, the `FOS_PICKFOLDERS` bit (bit 5) is set, every other bit
is that of `d`, the word still fits 32 bits, and it is `d` itself when `d`
already contains `FOS_PICKFOLDERS`. -/
theorem OnyxPickFolder_SetOptions_argument (pf : Platform) (StartFolder : Option Path)
    (hr : HRESULT) (d : DWORD)
    (hCreate : SUCCEEDED pf.CoCreateInstance.1 = true)
    (hGet : pf.GetOptions pf.CoCreateInstance.2 = (hr, d))
    (hOk : SUCCEEDED hr = true)
    (hd : d < 2 ^ 32) :
    (OnyxPickFolder pf StartFolder).2.filter Event.isSetOptions
        = [Event.SetOptions pf.CoCreateInstance.2 (d ||| FOS_PICKFOLDERS)
            (pf.SetOptions pf.CoCreateInstance.2 (d ||| FOS_PICKFOLDERS))]
    ∧ (∀ i, d.testBit i = true → (d ||| FOS_PICKFOLDERS).testBit i = true)
    ∧ (d ||| FOS_PICKFOLDERS).testBit 5 = true
    ∧ (∀ i, i ≠ 5 → (d ||| FOS_PICKFOLDERS).testBit i = d.testBit i)
    ∧ d ||| FOS_PICKFOLDERS < 2 ^ 32
    ∧ (d &&& FOS_PICKFOLDERS = FOS_PICKFOLDERS → d ||| FOS_PICKFOLDERS = d) := by
  have hF : FOS_PICKFOLDERS = 2 ^ 5 := by decide
  have hlt : d ||| FOS_PICKFOLDERS < 2 ^ 32 :=
    Nat.or_lt_two_pow hd (by rw [hF]; decide)
  have hmod : (d ||| FOS_PICKFOLDERS) % 4294967296 = d ||| FOS_PICKFOLDERS :=
    Nat.mod_eq_of_lt hlt
  refine ⟨?_, ?_, ?_, ?_, hlt, ?_⟩
  · unfold OnyxPickFolder
    simp only [hCreate, hGet, hOk]
    cases StartFolder with
    | none =>
      cases hS : SUCCEEDED (pf.Show pf.CoCreateInstance.2) <;>
      cases hR : SUCCEEDED (pf.GetResult pf.CoCreateInstance.2).1 <;>
      simp [hS, hR, hmod, Event.isSetOptions, List.filter_cons]
    | some s =>
      cases hV : SUCCEEDED (pf.SHCreateItemFromParsingName s).1 <;>
      cases hS : SUCCEEDED (pf.Show pf.CoCreateInstance.2) <;>
      cases hR : SUCCEEDED (pf.GetResult pf.CoCreateInstance.2).1 <;>
      simp [hV, hS, hR, hmod, Event.isSetOptions, List.filter_cons]
  · intro i hi
    simp [Nat.testBit_or, hi]
  · rw [hF, Nat.testBit_or, Nat.testBit_two_pow]; simp
  · intro i hi
    rw [hF, Nat.testBit_or, Nat.testBit_two_pow]
    simp [Ne.symm hi]
  · intro h
    apply Nat.eq_of_testBit_eq
    intro i
    have hb := congrArg (fun x => x.testBit i) h
    simp only [Nat.testBit_and] at hb
    rw [Nat.testBit_or]
    cases hdi : d.testBit i <;> cases hfi : FOS_PICKFOLDERS.testBit i <;> simp_all

/-- C10 at a concrete platform: the dialog's options are `0x1000`, and
`SetOptions` receives `0x1020`. -/
theorem OnyxPickFolder_SetOptions_argument_witness :
    (OnyxPickFolder happyPlatform none).2.filter Event.isSetOptions
        = [Event.SetOptions happyPlatform.CoCreateInstance.2 (0x1000 ||| FOS_PICKFOLDERS)
            (happyPlatform.SetOptions happyPlatform.CoCreateInstance.2
              (0x1000 ||| FOS_PICKFOLDERS))]
    ∧ (∀ i, Nat.testBit 0x1000 i = true → (0x1000 ||| FOS_PICKFOLDERS).testBit i = true)
    ∧ (0x1000 ||| FOS_PICKFOLDERS).testBit 5 = true
    ∧ (∀ i, i ≠ 5 → (0x1000 ||| FOS_PICKFOLDERS).testBit i = Nat.testBit 0x1000 i)
    ∧ 0x1000 ||| FOS_PICKFOLDERS < 2 ^ 32
    ∧ (0x1000 &&& FOS_PICKFOLDERS = FOS_PICKFOLDERS → 0x1000 ||| FOS_PICKFOLDERS = 0x1000) :=
  OnyxPickFolder_SetOptions_argument happyPlatform none S_OK 0x1000 (by decide) rfl
    (by decide) (by decide)

/-- On `windowsRuntime` the picker depends on the initialisation: with no
`onyxInitCOM` call the dialog cannot be created, after one the folder is picked. -/
theorem initThenPick_needs_init :
    initThenPick windowsRuntime none 0 0 = (none, [Event.CoCreateInstance CO_E_NOTINITIALIZED 0])
    ∧ (initThenPick windowsRuntime none 1 0).1 = some "D:/songs"
    ∧ (initThenPick windowsRuntime none 2 0).2.take 2
        = [Event.CoInitializeEx COINIT_APARTMENTTHREADED S_OK,
           Event.CoInitializeEx COINIT_APARTMENTTHREADED S_FALSE] := by
  refine ⟨?_, ?_, ?_⟩ <;>
  simp [initThenPick, ComRuntime.afterInit, onyxInitCOM, OnyxPickFolder, windowsRuntime,
    happyPlatform, Event.isCoInitializeEx, SUCCEEDED, S_OK, S_FALSE, CO_E_NOTINITIALIZED]

/-- Every run of `OnyxPickFolder` keeps the reference discipline. -/
theorem OnyxPickFolder_refSafe (pf : Platform) (StartFolder : Option Path) :
    refSafe [] (OnyxPickFolder pf StartFolder).2 = true := by
  unfold OnyxPickFolder
  cases StartFolder with
  | none =>
    cases hC : SUCCEEDED pf.CoCreateInstance.1 <;>
    cases hG : SUCCEEDED (pf.GetOptions pf.CoCreateInstance.2).1 <;>
    cases hS : SUCCEEDED (pf.Show pf.CoCreateInstance.2) <;>
    cases hR : SUCCEEDED (pf.GetResult pf.CoCreateInstance.2).1 <;>
    simp [hC, hG, hS, hR, refSafe, Event.uses, Event.acquires, Event.releases]
  | some s =>
    cases hC : SUCCEEDED pf.CoCreateInstance.1 <;>
    cases hG : SUCCEEDED (pf.GetOptions pf.CoCreateInstance.2).1 <;>
    cases hV : SUCCEEDED (pf.SHCreateItemFromParsingName s).1 <;>
    cases hS : SUCCEEDED (pf.Show pf.CoCreateInstance.2) <;>
    cases hR : SUCCEEDED (pf.GetResult pf.CoCreateInstance.2).1 <;>
    simp [hC, hG, hV, hS, hR, refSafe, Event.uses, Event.acquires, Event.releases]

/-- The discipline `refSafe` rejects a use after the release, a second release
and a reference that is never released. -/
theorem refSafe_rejects :
    refSafe [] [Event.CoCreateInstance S_OK 1, Event.Release (ComPtr.dialog 1),
        Event.Show 1 S_OK] = false
    ∧ refSafe [] [Event.CoCreateInstance S_OK 1, Event.Release (ComPtr.dialog 1),
        Event.Release (ComPtr.dialog 1)] = false
    ∧ refSafe [] [Event.CoCreateInstance S_OK 1, Event.Show 1 S_OK] = false
    ∧ refSafe [] [Event.CoCreateInstance E_FAIL 1, Event.Release (ComPtr.dialog 1)] = false := by
  decide

/-- How many `Release` calls a run makes, and where the dialog's is. -/
theorem OnyxPickFolder_release_counts (pf : Platform) (StartFolder : Option Path) :
    (OnyxPickFolder pf StartFolder).2.countP Event.isReleaseDialog
        = (if SUCCEEDED pf.CoCreateInstance.1 then 1 else 0)
    ∧ (SUCCEEDED pf.CoCreateInstance.1 = true →
        (OnyxPickFolder pf StartFolder).2.getLast?
          = some (Event.Release (ComPtr.dialog pf.CoCreateInstance.2)))
    ∧ (OnyxPickFolder pf StartFolder).2.countP Event.isReleaseItem
        = (match StartFolder with
            | some s =>
              if SUCCEEDED pf.CoCreateInstance.1
                  && SUCCEEDED (pf.SHCreateItemFromParsingName s).1 then 1 else 0
            | none => 0)
          + (if SUCCEEDED pf.CoCreateInstance.1
                && SUCCEEDED (pf.Show pf.CoCreateInstance.2)
                && SUCCEEDED (pf.GetResult pf.CoCreateInstance.2).1 then 1 else 0) := by
  unfold OnyxPickFolder
  cases StartFolder with
  | none =>
    cases hC : SUCCEEDED pf.CoCreateInstance.1 <;>
    cases hG : SUCCEEDED (pf.GetOptions pf.CoCreateInstance.2).1 <;>
    cases hS : SUCCEEDED (pf.Show pf.CoCreateInstance.2) <;>
    cases hR : SUCCEEDED (pf.GetResult pf.CoCreateInstance.2).1 <;>
    simp [hC, hG, hS, hR, Event.isReleaseDialog, Event.isReleaseItem, List.countP_cons]
  | some s =>
    cases hC : SUCCEEDED pf.CoCreateInstance.1 <;>
    cases hG : SUCCEEDED (pf.GetOptions pf.CoCreateInstance.2).1 <;>
    cases hV : SUCCEEDED (pf.SHCreateItemFromParsingName s).1 <;>
    cases hS : SUCCEEDED (pf.Show pf.CoCreateInstance.2) <;>
    cases hR : SUCCEEDED (pf.GetResult pf.CoCreateInstance.2).1 <;>
    simp [hC, hG, hV, hS, hR, Event.isReleaseDialog, Event.isReleaseItem, List.countP_cons]


/-- A window of a list is an infix of it. -/
theorem infix_window {α : Type} {l t : List α} (k n : Nat)
    (h : (t.drop k).take n = l) : l <:+: t :=
  ⟨t.take k, (t.drop k).drop n, by rw [← h]; simp⟩

/-- A resolved start item is passed to `SetFolder` and released right after. -/
theorem OnyxPickFolder_start_item_released (pf : Platform) (s : Path)
    (hC : SUCCEEDED pf.CoCreateInstance.1 = true)
    (hV : SUCCEEDED (pf.SHCreateItemFromParsingName s).1 = true) :
    [Event.SHCreateItemFromParsingName s (pf.SHCreateItemFromParsingName s).1
        (pf.SHCreateItemFromParsingName s).2,
     Event.SetFolder pf.CoCreateInstance.2 (pf.SHCreateItemFromParsingName s).2
        (pf.SetFolder pf.CoCreateInstance.2 (pf.SHCreateItemFromParsingName s).2),
     Event.Release (ComPtr.item (pf.SHCreateItemFromParsingName s).2)]
      <:+: (OnyxPickFolder pf (some s)).2 := by
  unfold OnyxPickFolder
  simp only [hC, hV]
  cases hG : SUCCEEDED (pf.GetOptions pf.CoCreateInstance.2).1 <;>
  cases hS : SUCCEEDED (pf.Show pf.CoCreateInstance.2) <;>
  cases hR : SUCCEEDED (pf.GetResult pf.CoCreateInstance.2).1 <;>
  simp only [hG, hS, hR, if_true, if_false, Bool.false_eq_true, List.append_assoc,
    List.singleton_append, List.cons_append, List.nil_append] <;>
  first
    | exact infix_window 2 3 rfl
    | exact infix_window 3 3 rfl

/-- The result item is asked for its display name and released right after. -/
theorem OnyxPickFolder_result_item_released (pf : Platform) (StartFolder : Option Path)
    (hC : SUCCEEDED pf.CoCreateInstance.1 = true)
    (hS : SUCCEEDED (pf.Show pf.CoCreateInstance.2) = true)
    (hR : SUCCEEDED (pf.GetResult pf.CoCreateInstance.2).1 = true) :
    [Event.GetResult pf.CoCreateInstance.2 (pf.GetResult pf.CoCreateInstance.2).1
        (pf.GetResult pf.CoCreateInstance.2).2,
     Event.GetDisplayName (pf.GetResult pf.CoCreateInstance.2).2
        SIGDN_DESKTOPABSOLUTEPARSING
        (pf.GetDisplayName (pf.GetResult pf.CoCreateInstance.2).2
          SIGDN_DESKTOPABSOLUTEPARSING).1
        (pf.GetDisplayName (pf.GetResult pf.CoCreateInstance.2).2
          SIGDN_DESKTOPABSOLUTEPARSING).2,
     Event.Release (ComPtr.item (pf.GetResult pf.CoCreateInstance.2).2)]
      <:+: (OnyxPickFolder pf StartFolder).2 := by
  unfold OnyxPickFolder
  simp only [hC, hS, hR]
  cases StartFolder with
  | none =>
    cases hG : SUCCEEDED (pf.GetOptions pf.CoCreateInstance.2).1 <;>
    simp only [hG, if_true, if_false, Bool.false_eq_true, List.append_assoc,
      List.singleton_append, List.cons_append, List.nil_append] <;>
    first
      | exact infix_window 3 3 rfl
      | exact infix_window 4 3 rfl
  | some s =>
    cases hG : SUCCEEDED (pf.GetOptions pf.CoCreateInstance.2).1 <;>
    cases hV : SUCCEEDED (pf.SHCreateItemFromParsingName s).1 <;>
    simp only [hG, hV, if_true, if_false, Bool.false_eq_true, List.append_assoc,
      List.singleton_append, List.cons_append, List.nil_append] <;>
    first
      | exact infix_window 4 3 rfl
      | exact infix_window 5 3 rfl
      | exact infix_window 6 3 rfl
      | exact infix_window 7 3 rfl

/-- C9: on every run of `OnyxPickFolder` the reference discipline `refSafe`
holds (each object is used and released only while held, and nothing is held at
the end).  The dialog is released once exactly when creation succeeded, and that
`Release` is the last call; the number of shell item releases is one for a
resolved start folder plus one for a successful `GetResult`; the start item is
released right after the `SetFolder` that received it, and the result item right
after the `GetDisplayName` made on it. -/
theorem OnyxPickFolder_references_balanced (pf : Platform) (StartFolder : Option Path) :
    refSafe [] (OnyxPickFolder pf StartFolder).2 = true
    ∧ (OnyxPickFolder pf StartFolder).2.countP Event.isReleaseDialog
        = (if SUCCEEDED pf.CoCreateInstance.1 then 1 else 0)
    ∧ (SUCCEEDED pf.CoCreateInstance.1 = true →
        (OnyxPickFolder pf StartFolder).2.getLast?
          = some (Event.Release (ComPtr.dialog pf.CoCreateInstance.2)))
    ∧ (OnyxPickFolder pf StartFolder).2.countP Event.isReleaseItem
        = (match StartFolder with
            | some s =>
              if SUCCEEDED pf.CoCreateInstance.1
                  && SUCCEEDED (pf.SHCreateItemFromParsingName s).1 then 1 else 0
            | none => 0)
          + (if SUCCEEDED pf.CoCreateInstance.1
                && SUCCEEDED (pf.Show pf.CoCreateInstance.2)
                && SUCCEEDED (pf.GetResult pf.CoCreateInstance.2).1 then 1 else 0)
    ∧ (∀ s, StartFolder = some s → SUCCEEDED pf.CoCreateInstance.1 = true →
        SUCCEEDED (pf.SHCreateItemFromParsingName s).1 = true →
        [Event.SHCreateItemFromParsingName s (pf.SHCreateItemFromParsingName s).1
            (pf.SHCreateItemFromParsingName s).2,
         Event.SetFolder pf.CoCreateInstance.2 (pf.SHCreateItemFromParsingName s).2
            (pf.SetFolder pf.CoCreateInstance.2 (pf.SHCreateItemFromParsingName s).2),
         Event.Release (ComPtr.item (pf.SHCreateItemFromParsingName s).2)]
          <:+: (OnyxPickFolder pf StartFolder).2)
    ∧ (SUCCEEDED pf.CoCreateInstance.1 = true →
        SUCCEEDED (pf.Show pf.CoCreateInstance.2) = true →
        SUCCEEDED (pf.GetResult pf.CoCreateInstance.2).1 = true →
        [Event.GetResult pf.CoCreateInstance.2 (pf.GetResult pf.CoCreateInstance.2).1
            (pf.GetResult pf.CoCreateInstance.2).2,
         Event.GetDisplayName (pf.GetResult pf.CoCreateInstance.2).2
            SIGDN_DESKTOPABSOLUTEPARSING
            (pf.GetDisplayName (pf.GetResult pf.CoCreateInstance.2).2
              SIGDN_DESKTOPABSOLUTEPARSING).1
            (pf.GetDisplayName (pf.GetResult pf.CoCreateInstance.2).2
              SIGDN_DESKTOPABSOLUTEPARSING).2,
         Event.Release (ComPtr.item (pf.GetResult pf.CoCreateInstance.2).2)]
          <:+: (OnyxPickFolder pf StartFolder).2) :=
  ⟨OnyxPickFolder_refSafe pf StartFolder,
   (OnyxPickFolder_release_counts pf StartFolder).1,
   (OnyxPickFolder_release_counts pf StartFolder).2.1,
   (OnyxPickFolder_release_counts pf StartFolder).2.2,
   fun s hs hC hV => hs ▸ OnyxPickFolder_start_item_released pf s hC hV,
   OnyxPickFolder_result_item_released pf StartFolder⟩

/-- C9 at a concrete platform: the picked item `3` is acquired, named and
released, in that order. -/
theorem OnyxPickFolder_references_balanced_witness :
    [Event.GetResult 1 S_OK 3,
     Event.GetDisplayName 3 SIGDN_DESKTOPABSOLUTEPARSING S_OK (some (some "D:/songs")),
     Event.Release (ComPtr.item 3)]
      <:+: (OnyxPickFolder happyPlatform none).2 :=
  (OnyxPickFolder_references_balanced happyPlatform none).2.2.2.2.2
    (by decide) (by decide) (by decide)

end Onyx
